import Mathlib

/-!
Shallow embedding of the book CRUD service in `main.go`: the `Book` record,
the in-memory store (a Go map from id to Book, modelled as an association
list with map semantics), the payload validator, and the request handlers
`getAllBooks`, `getBookByID`, `createBook`, `updateBook` (PATCH),
`replaceBook` (PUT) and `deleteBook`.  Concurrency is out of scope: the Go
handlers take the store lock around every access, so each handler is
modelled as a sequential function from the store (plus parsed request data)
to the new store and a structured outcome.  A request body is `Option Book`:
`none` stands for a body that `BodyParser` rejects.  The freshly generated
uuid of `createBook` and the seed uuids enter as string parameters.
-/

/-- The Book record of `main.go` (`ID`, `Title`, `Author`, `Year`). -/
structure Book where
  id : String
  title : String
  author : String
  year : Int
deriving Repr, DecidableEq

/-- The store: Go's `map[string]Book`, modelled as an association list. -/
abbrev Store := List (String × Book)

/-- Map lookup `store[id]` (the `value, ok` form). -/
def storeFind : Store → String → Option Book
  | [], _ => none
  | (k, v) :: rest, id => if k = id then some v else storeFind rest id

/-- Map assignment `store[id] = b`: overwrite in place, else append. -/
def storeInsert : Store → String → Book → Store
  | [], id, b => [(id, b)]
  | (k, v) :: rest, id, b =>
    if k = id then (id, b) :: rest else (k, v) :: storeInsert rest id b

/-- Map deletion `delete(store, id)`. -/
def storeErase (s : Store) (id : String) : Store :=
  s.filter (fun p => p.1 != id)

/-- The `validateBookPayload` function: `some msg` is a returned error,
`none` is `nil`. -/
def validateBookPayload (b : Book) : Option String :=
  if b.title = "" then some "title is required"
  else if b.author = "" then some "author is required"
  else none

/-- Structured handler outcome: an HTTP status with an optional Book body,
or a `fiber.NewError` status and message. -/
inductive Outcome where
  | success (status : Nat) (body : Option Book)
  | failure (status : Nat) (msg : String)
deriving Repr, DecidableEq

/-- Result shape of the list endpoint: the JSON object
with fields data, page, limit, total. -/
structure ListResult where
  data : List Book
  page : Int
  limit : Int
  total : Nat
deriving Repr, DecidableEq

/-- Signed 64-bit wrap-around of Go's `int` arithmetic: the representative
of x mod 2^64 lying in [-2^63, 2^63).  The numerals are 2^63 and 2^64. -/
def wrap64 (x : Int) : Int :=
  (x + 9223372036854775808) % 18446744073709551616 - 9223372036854775808

/-- The Go slice expression `books[start:stop]`: the sub-slice when
`0 ≤ start ≤ stop ≤ len(books)`, and `none` for the out-of-range panic
(converted to a 500 by the recover middleware). -/
def goSlice (books : List Book) (start stop : Int) : Option (List Book) :=
  if 0 ≤ start ∧ start ≤ stop ∧ stop ≤ (books.length : Int) then
    some ((books.take stop.toNat).drop start.toNat)
  else none

/-- The local `start := (page - 1) * limit` of `getAllBooks`, wrapped as
64-bit int arithmetic and then clamped to the snapshot length. -/
def listStart (books : List Book) (page limit : Int) : Int :=
  let start0 := wrap64 (wrap64 (page - 1) * limit)
  if start0 > (books.length : Int) then (books.length : Int) else start0

/-- The local `end := start + limit` of `getAllBooks`, wrapped as 64-bit
int arithmetic and then clamped to the snapshot length. -/
def listStop (books : List Book) (page limit : Int) : Int :=
  let stop0 := wrap64 (listStart books page limit + limit)
  if stop0 > (books.length : Int) then (books.length : Int) else stop0

/-- The `getAllBooks` handler.  `pageQ`/`limitQ` are the int64 values
produced by `strconv.Atoi` on the query parameters (0 on parse failure, 1
resp. 50 when absent); `books` is the snapshot slice copied out of the
map.  `none` is the panic of the slice expression on wrapped indices. -/
def getAllBooks (books : List Book) (pageQ limitQ : Int) : Option ListResult :=
  let page := if pageQ < 1 then 1 else pageQ
  let limit := if limitQ < 1 then 50 else limitQ
  (goSlice books (listStart books page limit) (listStop books page limit)).map
    fun paged =>
      { data := paged
        page := page
        limit := limit
        total := books.length }

/-- The `getBookByID` handler. -/
def getBookByID (s : Store) (id : String) : Outcome :=
  match storeFind s id with
  | none => .failure 404 "book not found"
  | some b => .success 200 (some b)

/-- The `createBook` handler; `nid` is the freshly generated uuid string. -/
def createBook (s : Store) (body : Option Book) (nid : String) : Store × Outcome :=
  match body with
  | none => (s, .failure 400 "invalid JSON body")
  | some payload =>
    match validateBookPayload payload with
    | some msg => (s, .failure 400 msg)
    | none =>
      let b := { payload with id := nid }
      (storeInsert s nid b, .success 201 (some b))

/-- The `updateBook` (PATCH) handler: existence check first, then body
parse, then field-wise merge of non-empty / non-zero payload fields. -/
def updateBook (s : Store) (id : String) (body : Option Book) : Store × Outcome :=
  match storeFind s id with
  | none => (s, .failure 404 "book not found")
  | some existing =>
    match body with
    | none => (s, .failure 400 "invalid JSON body")
    | some payload =>
      let merged : Book :=
        { id := existing.id
          title := if payload.title ≠ "" then payload.title else existing.title
          author := if payload.author ≠ "" then payload.author else existing.author
          year := if payload.year ≠ 0 then payload.year else existing.year }
      (storeInsert s id merged, .success 200 (some merged))

/-- The `replaceBook` (PUT) handler: body parse, then validation, then the
existence check, then overwrite with `payload.ID = id`. -/
def replaceBook (s : Store) (id : String) (body : Option Book) : Store × Outcome :=
  match body with
  | none => (s, .failure 400 "invalid JSON body")
  | some payload =>
    match validateBookPayload payload with
    | some msg => (s, .failure 400 msg)
    | none =>
      let b := { payload with id := id }
      match storeFind s id with
      | none => (s, .failure 404 "book not found")
      | some _ => (storeInsert s id b, .success 200 (some b))

/-- The `deleteBook` handler. -/
def deleteBook (s : Store) (id : String) : Store × Outcome :=
  match storeFind s id with
  | none => (s, .failure 404 "book not found")
  | some _ => (storeErase s id, .success 204 none)

/-- The `seedData` function; `id1`, `id2` are the two generated uuids. -/
def seedData (id1 id2 : String) : Store :=
  storeInsert
    (storeInsert []
      id1 { id := id1, title := "Clean Architecture",
            author := "Robert C. Martin", year := 2017 })
    id2 { id := id2, title := "The Go Programming Language",
          author := "Alan A. A. Donovan", year := 2015 }

example :
    getAllBooks [⟨"a", "A", "AA", 1⟩, ⟨"b", "B", "BB", 2⟩, ⟨"c", "C", "CC", 3⟩] 2 1 =
      some { data := [⟨"b", "B", "BB", 2⟩], page := 2, limit := 1, total := 3 } := by decide

example : (getAllBooks [] 1 0).map ListResult.limit = some 50 := by decide

example :
    updateBook [("i", ⟨"i", "A", "B", 5⟩)] "i" (some ⟨"", "X", "", 0⟩) =
      ([("i", ⟨"i", "X", "B", 5⟩)], .success 200 (some ⟨"i", "X", "B", 5⟩)) := by decide

/-- Sample store holding the single book of the spec's partial-update
example, keyed at "i". -/
def demoStore : Store := [("i", { id := "i", title := "A", author := "B", year := 5 })]

/-- Sample partial-update body carrying only a title. -/
def patchX : Book := { id := "", title := "X", author := "", year := 0 }

/-- Sample valid create payload. -/
def payloadT : Book := { id := "", title := "T", author := "A", year := 2020 }

theorem storeFind_insert_self (s : Store) (id : String) (b : Book) :
    storeFind (storeInsert s id b) id = some b := by
  induction s with
  | nil => simp [storeInsert, storeFind]
  | cons p rest ih =>
    obtain ⟨k, v⟩ := p
    by_cases h : k = id
    · simp [storeInsert, h, storeFind]
    · simp [storeInsert, h, storeFind, ih]

theorem storeFind_insert_ne (s : Store) (id j : String) (b : Book) (h : j ≠ id) :
    storeFind (storeInsert s id b) j = storeFind s j := by
  have hij : id ≠ j := Ne.symm h
  induction s with
  | nil => simp [storeInsert, storeFind, hij]
  | cons p rest ih =>
    obtain ⟨k, v⟩ := p
    by_cases hk : k = id
    · subst hk
      simp [storeInsert, storeFind, hij]
    · simp [storeInsert, storeFind, hk, ih]

theorem storeFind_erase_self (s : Store) (id : String) :
    storeFind (storeErase s id) id = none := by
  induction s with
  | nil => simp [storeErase, storeFind]
  | cons p rest ih =>
    obtain ⟨k, v⟩ := p
    by_cases h : k = id
    · simpa [storeErase, List.filter_cons, h] using ih
    · simpa [storeErase, List.filter_cons, h, storeFind] using ih

theorem storeFind_erase_ne (s : Store) (id j : String) (h : j ≠ id) :
    storeFind (storeErase s id) j = storeFind s j := by
  have hij : id ≠ j := Ne.symm h
  induction s with
  | nil => rfl
  | cons p rest ih =>
    obtain ⟨k, v⟩ := p
    by_cases hk : k = id
    · subst hk
      simp only [storeErase] at ih
      simp [storeErase, List.filter_cons, storeFind, hij, ih]
    · simp only [storeErase] at ih
      simp [storeErase, List.filter_cons, storeFind, hk, ih]

theorem storeInsert_idem (s : Store) (id : String) (b : Book) :
    storeInsert (storeInsert s id b) id b = storeInsert s id b := by
  induction s with
  | nil => simp [storeInsert]
  | cons p rest ih =>
    obtain ⟨k, v⟩ := p
    by_cases h : k = id
    · simp [storeInsert, h]
    · simp [storeInsert, h, ih]

theorem storeFind_mem (s : Store) (id : String) (b : Book)
    (h : storeFind s id = some b) : (id, b) ∈ s := by
  induction s with
  | nil => simp [storeFind] at h
  | cons p rest ih =>
    obtain ⟨k, v⟩ := p
    by_cases hk : k = id
    · subst hk
      have hv : v = b := by simpa [storeFind] using h
      subst hv
      exact List.mem_cons_self _ _
    · have h2 : storeFind rest id = some b := by simpa [storeFind, hk] using h
      exact List.mem_cons_of_mem _ (ih h2)

/-- Integrity of one stored entry: the Book under `key` carries `key` as its
own id, and its id, title and author are non-empty. -/
def BookOK (key : String) (b : Book) : Prop :=
  b.id = key ∧ b.id ≠ "" ∧ b.title ≠ "" ∧ b.author ≠ ""

/-- The store invariant of the spec: every stored Book satisfies `BookOK`
with respect to its key. -/
def StoreInv (s : Store) : Prop := ∀ p ∈ s, BookOK p.1 p.2

instance (key : String) (b : Book) : Decidable (BookOK key b) := by
  unfold BookOK; infer_instance

instance (s : Store) : Decidable (StoreInv s) := by
  unfold StoreInv; infer_instance

theorem StoreInv_insert (s : Store) (id : String) (b : Book)
    (hs : StoreInv s) (hb : BookOK id b) : StoreInv (storeInsert s id b) := by
  induction s with
  | nil =>
    intro p hp
    simp only [storeInsert, List.mem_singleton] at hp
    subst hp; exact hb
  | cons q rest ih =>
    obtain ⟨k, v⟩ := q
    have hs0 : BookOK k v := hs (k, v) (List.mem_cons_self _ _)
    have hsr : StoreInv rest := fun p hp => hs p (List.mem_cons_of_mem _ hp)
    by_cases h : k = id
    · intro p hp
      simp only [storeInsert, if_pos h, List.mem_cons] at hp
      rcases hp with hp | hp
      · subst hp; exact hb
      · exact hsr p hp
    · intro p hp
      simp only [storeInsert, if_neg h, List.mem_cons] at hp
      rcases hp with hp | hp
      · subst hp; exact hs0
      · exact ih hsr p hp

theorem StoreInv_erase (s : Store) (id : String) (hs : StoreInv s) :
    StoreInv (storeErase s id) :=
  fun p hp => hs p (List.mem_of_mem_filter hp)

/-- Sample payload with an empty title. -/
def bookNoTitle : Book := { id := "", title := "", author := "X", year := 0 }

/-- Sample payload with an empty author. -/
def bookNoAuthor : Book := { id := "", title := "X", author := "", year := 0 }

theorem validateBookPayload_none_iff (b : Book) :
    validateBookPayload b = none ↔ (b.title ≠ "" ∧ b.author ≠ "") := by
  unfold validateBookPayload
  by_cases ht : b.title = "" <;> by_cases ha : b.author = "" <;> simp [ht, ha]

/-- C3: validation fails exactly on an empty title or an empty author, with
the descriptive messages of the source; Create and Replace apply it and
reject such payloads with a 400 error and an unchanged store, while
PartialUpdate does not apply it: a body with empty title and author on an
existing id still succeeds with 200. -/
theorem validation_applied_on_create_and_replace_only :
    (∀ b : Book, validateBookPayload b = none ↔ (b.title ≠ "" ∧ b.author ≠ "")) ∧
    (∀ b : Book, b.title = "" → validateBookPayload b = some "title is required") ∧
    (∀ b : Book, b.title ≠ "" → b.author = "" →
      validateBookPayload b = some "author is required") ∧
    (∀ (s : Store) (nid : String) (b : Book), b.title = "" ∨ b.author = "" →
      ∃ msg, createBook s (some b) nid = (s, Outcome.failure 400 msg)) ∧
    (∀ (s : Store) (id : String) (b : Book), b.title = "" ∨ b.author = "" →
      ∃ msg, replaceBook s id (some b) = (s, Outcome.failure 400 msg)) ∧
    (∀ (s : Store) (id : String) (b stored : Book), storeFind s id = some stored →
      b.title = "" ∨ b.author = "" →
      ∃ merged, (updateBook s id (some b)).2 = Outcome.success 200 (some merged)) := by
  have hv : ∀ b : Book, b.title = "" ∨ b.author = "" → ∃ msg, validateBookPayload b = some msg := by
    intro b hb
    unfold validateBookPayload
    by_cases ht : b.title = ""
    · exact ⟨"title is required", by simp [ht]⟩
    · rcases hb with hb | hb
      · exact absurd hb ht
      · exact ⟨"author is required", by simp [ht, hb]⟩
  refine ⟨validateBookPayload_none_iff, ?_, ?_, ?_, ?_, ?_⟩
  · intro b ht; simp [validateBookPayload, ht]
  · intro b ht ha; simp [validateBookPayload, ht, ha]
  · intro s nid b hb
    obtain ⟨msg, hm⟩ := hv b hb
    exact ⟨msg, by simp [createBook, hm]⟩
  · intro s id b hb
    obtain ⟨msg, hm⟩ := hv b hb
    exact ⟨msg, by simp [replaceBook, hm]⟩
  · intro s id b stored hf hb
    refine ⟨{ id := stored.id
              title := if b.title ≠ "" then b.title else stored.title
              author := if b.author ≠ "" then b.author else stored.author
              year := if b.year ≠ 0 then b.year else stored.year }, ?_⟩
    simp [updateBook, hf]

/-- C3 witness: the validation behaviour at concrete payloads: a missing
title is rejected by Create and Replace with "title is required", and a
partial update whose body has empty title and author still succeeds. -/
theorem validation_applied_witness :
    (validateBookPayload payloadT = none ↔ (payloadT.title ≠ "" ∧ payloadT.author ≠ "")) ∧
    validateBookPayload bookNoTitle = some "title is required" ∧
    validateBookPayload bookNoAuthor = some "author is required" ∧
    (∃ msg, createBook [] (some bookNoTitle) "n" = ([], Outcome.failure 400 msg)) ∧
    (∃ msg, replaceBook [] "i" (some bookNoTitle) = ([], Outcome.failure 400 msg)) ∧
    (∃ merged, (updateBook demoStore "i" (some { id := "", title := "", author := "", year := 0 })).2 =
      Outcome.success 200 (some merged)) := by
  have h := validation_applied_on_create_and_replace_only
  exact ⟨h.1 payloadT, h.2.1 bookNoTitle rfl, h.2.2.1 bookNoAuthor (by decide) rfl,
    h.2.2.2.1 [] "n" bookNoTitle (Or.inl rfl),
    h.2.2.2.2.1 [] "i" bookNoTitle (Or.inl rfl),
    h.2.2.2.2.2 demoStore "i" { id := "", title := "", author := "", year := 0 }
      { id := "i", title := "A", author := "B", year := 5 } rfl (Or.inl rfl)⟩

/-- C4: on an existing id, PartialUpdate stores and returns a merged Book
that keeps the stored id, overwrites title, author and year exactly when
the incoming value is non-empty (strings) or non-zero (year), and keeps the
stored value otherwise. -/
theorem updateBook_merges_fields (s : Store) (id : String) (stored payload : Book)
    (h : storeFind s id = some stored) :
    ∃ merged : Book,
      updateBook s id (some payload) =
        (storeInsert s id merged, Outcome.success 200 (some merged)) ∧
      storeFind (updateBook s id (some payload)).1 id = some merged ∧
      merged.id = stored.id ∧
      merged.title = (if payload.title = "" then stored.title else payload.title) ∧
      merged.author = (if payload.author = "" then stored.author else payload.author) ∧
      merged.year = (if payload.year = 0 then stored.year else payload.year) := by
  refine ⟨{ id := stored.id
            title := if payload.title ≠ "" then payload.title else stored.title
            author := if payload.author ≠ "" then payload.author else stored.author
            year := if payload.year ≠ 0 then payload.year else stored.year },
    by simp [updateBook, h], ?_, rfl, ?_, ?_, ?_⟩
  · simp [updateBook, h, storeFind_insert_self]
  · by_cases hc : payload.title = "" <;> simp [hc]
  · by_cases hc : payload.author = "" <;> simp [hc]
  · by_cases hc : payload.year = 0 <;> simp [hc]

/-- C4 witness: the spec example: patching only the title "X" onto the
stored book with title "A", author "B", year 5 keeps author, year and id. -/
theorem updateBook_merges_fields_witness :
    storeFind demoStore "i" = some { id := "i", title := "A", author := "B", year := 5 } ∧
    (∃ merged : Book,
      updateBook demoStore "i" (some patchX) =
        (storeInsert demoStore "i" merged, Outcome.success 200 (some merged)) ∧
      storeFind (updateBook demoStore "i" (some patchX)).1 "i" = some merged ∧
      merged.id = (Book.mk "i" "A" "B" 5).id ∧
      merged.title = (if patchX.title = "" then (Book.mk "i" "A" "B" 5).title else patchX.title) ∧
      merged.author = (if patchX.author = "" then (Book.mk "i" "A" "B" 5).author else patchX.author) ∧
      merged.year = (if patchX.year = 0 then (Book.mk "i" "A" "B" 5).year else patchX.year)) :=
  ⟨rfl, updateBook_merges_fields demoStore "i" (Book.mk "i" "A" "B" 5) patchX rfl⟩

/-- C6: Replace is idempotent on the store: on an existing id with a valid
payload, applying Replace twice leaves the same stored state as once. -/
theorem replaceBook_idempotent (s : Store) (id : String) (payload : Book)
    (hex : (storeFind s id).isSome = true) (hval : validateBookPayload payload = none) :
    (replaceBook (replaceBook s id (some payload)).1 id (some payload)).1 =
      (replaceBook s id (some payload)).1 := by
  obtain ⟨e, he⟩ := Option.isSome_iff_exists.mp hex
  have h1 : (replaceBook s id (some payload)).1 = storeInsert s id { payload with id := id } := by
    simp [replaceBook, hval, he]
  rw [h1]
  have h2 : storeFind (storeInsert s id { payload with id := id }) id =
      some { payload with id := id } := storeFind_insert_self s id _
  simp [replaceBook, hval, h2, storeInsert_idem]

/-- C6 witness: replacing the demo book twice with the same valid payload
equals replacing it once. -/
theorem replaceBook_idempotent_witness :
    (storeFind demoStore "i").isSome = true ∧ validateBookPayload payloadT = none ∧
    (replaceBook (replaceBook demoStore "i" (some payloadT)).1 "i" (some payloadT)).1 =
      (replaceBook demoStore "i" (some payloadT)).1 :=
  ⟨rfl, rfl, replaceBook_idempotent demoStore "i" payloadT rfl rfl⟩

/-- C7: round-trip: creating a valid payload succeeds with 201, and getting
the freshly assigned id returns a Book equal to the payload in title,
author and year, differing only in the assigned id. -/
theorem create_get_roundtrip (s : Store) (payload : Book) (nid : String)
    (hval : validateBookPayload payload = none) :
    ∃ created : Book,
      (createBook s (some payload) nid).2 = Outcome.success 201 (some created) ∧
      getBookByID (createBook s (some payload) nid).1 nid = Outcome.success 200 (some created) ∧
      created.title = payload.title ∧ created.author = payload.author ∧
      created.year = payload.year ∧ created.id = nid := by
  refine ⟨{ payload with id := nid }, ?_, ?_, rfl, rfl, rfl, rfl⟩
  · simp [createBook, hval]
  · simp [createBook, hval, getBookByID, storeFind_insert_self]

/-- C7 witness: the round-trip at the spec scenario payload with title "T",
author "A", year 2020, created into the empty store under id "n". -/
theorem create_get_roundtrip_witness :
    validateBookPayload payloadT = none ∧
    (∃ created : Book,
      (createBook [] (some payloadT) "n").2 = Outcome.success 201 (some created) ∧
      getBookByID (createBook [] (some payloadT) "n").1 "n" = Outcome.success 200 (some created) ∧
      created.title = payloadT.title ∧ created.author = payloadT.author ∧
      created.year = payloadT.year ∧ created.id = "n") :=
  ⟨rfl, create_get_roundtrip [] payloadT "n" rfl⟩

/-- C8: after a Delete that succeeds with 204, getting the same id yields
404 "book not found", and the entry at every other id is untouched. -/
theorem delete_then_get_not_found (s : Store) (id : String)
    (h : (deleteBook s id).2 = Outcome.success 204 none) :
    getBookByID (deleteBook s id).1 id = Outcome.failure 404 "book not found" ∧
    ∀ j, j ≠ id → storeFind (deleteBook s id).1 j = storeFind s j := by
  cases hf : storeFind s id with
  | none => simp [deleteBook, hf] at h
  | some b =>
    have hst : (deleteBook s id).1 = storeErase s id := by simp [deleteBook, hf]
    rw [hst]
    exact ⟨by simp [getBookByID, storeFind_erase_self],
      fun j hj => storeFind_erase_ne s id j hj⟩

/-- C8 witness: deleting the demo book succeeds and afterwards getting "i"
is a 404 while every other key reads as before. -/
theorem delete_then_get_not_found_witness :
    (deleteBook demoStore "i").2 = Outcome.success 204 none ∧
    (getBookByID (deleteBook demoStore "i").1 "i" = Outcome.failure 404 "book not found" ∧
      ∀ j, j ≠ "i" → storeFind (deleteBook demoStore "i").1 j = storeFind demoStore j) :=
  ⟨rfl, delete_then_get_not_found demoStore "i" rfl⟩

/-- C9: Replace parses and validates the body before the existence check, so
a malformed or invalid body on an unknown id yields 400, while
PartialUpdate checks existence first, so an unknown id yields 404 whatever
the body, including a malformed one. -/
theorem error_precedence :
    (∀ (s : Store) (id : String), storeFind s id = none →
      replaceBook s id none = (s, Outcome.failure 400 "invalid JSON body")) ∧
    (∀ (s : Store) (id : String) (payload : Book) (msg : String), storeFind s id = none →
      validateBookPayload payload = some msg →
      replaceBook s id (some payload) = (s, Outcome.failure 400 msg)) ∧
    (∀ (s : Store) (id : String) (body : Option Book), storeFind s id = none →
      updateBook s id body = (s, Outcome.failure 404 "book not found")) := by
  refine ⟨fun s id _ => rfl, ?_, ?_⟩
  · intro s id payload msg _ hv
    simp [replaceBook, hv]
  · intro s id body hf
    simp [updateBook, hf]

/-- C9 witness: on the empty store, PUT of a malformed body at unknown id
"z" is 400, PUT of an invalid body is 400 with its message, and PATCH of a
malformed body at "z" is 404. -/
theorem error_precedence_witness :
    storeFind [] "z" = none ∧
    replaceBook [] "z" none = ([], Outcome.failure 400 "invalid JSON body") ∧
    validateBookPayload bookNoTitle = some "title is required" ∧
    replaceBook [] "z" (some bookNoTitle) = ([], Outcome.failure 400 "title is required") ∧
    updateBook [] "z" none = ([], Outcome.failure 404 "book not found") := by
  have h := error_precedence
  exact ⟨rfl, h.1 [] "z" rfl, rfl, h.2.1 [] "z" bookNoTitle "title is required" rfl rfl,
    h.2.2 [] "z" none rfl⟩

/-- C10: error atomicity: whenever Create, PartialUpdate, Replace or Delete
returns a failure outcome, the store it returns is exactly the store it was
given. -/
theorem handlers_error_atomicity :
    (∀ (s : Store) (body : Option Book) (nid : String) (c : Nat) (m : String),
      (createBook s body nid).2 = Outcome.failure c m → (createBook s body nid).1 = s) ∧
    (∀ (s : Store) (id : String) (body : Option Book) (c : Nat) (m : String),
      (updateBook s id body).2 = Outcome.failure c m → (updateBook s id body).1 = s) ∧
    (∀ (s : Store) (id : String) (body : Option Book) (c : Nat) (m : String),
      (replaceBook s id body).2 = Outcome.failure c m → (replaceBook s id body).1 = s) ∧
    (∀ (s : Store) (id : String) (c : Nat) (m : String),
      (deleteBook s id).2 = Outcome.failure c m → (deleteBook s id).1 = s) := by
  refine ⟨?_, ?_, ?_, ?_⟩
  · intro s body nid c m h
    cases body with
    | none => rfl
    | some payload =>
      cases hv : validateBookPayload payload with
      | some msg => simp [createBook, hv]
      | none => simp [createBook, hv] at h
  · intro s id body c m h
    cases hf : storeFind s id with
    | none => simp [updateBook, hf]
    | some e =>
      cases body with
      | none => simp [updateBook, hf]
      | some payload => simp [updateBook, hf] at h
  · intro s id body c m h
    cases body with
    | none => rfl
    | some payload =>
      cases hv : validateBookPayload payload with
      | some msg => simp [replaceBook, hv]
      | none =>
        cases hf : storeFind s id with
        | none => simp [replaceBook, hv, hf]
        | some e => simp [replaceBook, hv, hf] at h
  · intro s id c m h
    cases hf : storeFind s id with
    | none => simp [deleteBook, hf]
    | some e => simp [deleteBook, hf] at h

/-- C10 witness: concrete error paths of each handler leave the demo store
untouched. -/
theorem handlers_error_atomicity_witness :
    ((createBook demoStore none "n").2 = Outcome.failure 400 "invalid JSON body" ∧
      (createBook demoStore none "n").1 = demoStore) ∧
    ((updateBook demoStore "z" none).2 = Outcome.failure 404 "book not found" ∧
      (updateBook demoStore "z" none).1 = demoStore) ∧
    ((replaceBook demoStore "i" (some bookNoTitle)).2 = Outcome.failure 400 "title is required" ∧
      (replaceBook demoStore "i" (some bookNoTitle)).1 = demoStore) ∧
    ((deleteBook demoStore "z").2 = Outcome.failure 404 "book not found" ∧
      (deleteBook demoStore "z").1 = demoStore) := by
  have h := handlers_error_atomicity
  exact ⟨⟨rfl, h.1 demoStore none "n" 400 "invalid JSON body" rfl⟩,
    ⟨rfl, h.2.1 demoStore "z" none 404 "book not found" rfl⟩,
    ⟨rfl, h.2.2.1 demoStore "i" (some bookNoTitle) 400 "title is required" rfl⟩,
    ⟨rfl, h.2.2.2 demoStore "z" 404 "book not found" rfl⟩⟩

/-- C5: the store invariant: every stored Book carries its own key as a
non-empty id and has non-empty title and author.  It holds after seeding
with non-empty uuids and is preserved by Create (with a non-empty fresh
uuid), PartialUpdate, Replace and Delete. -/
theorem store_invariant_preserved (id1 id2 : String) (h1 : id1 ≠ "") (h2 : id2 ≠ "") :
    StoreInv (seedData id1 id2) ∧
    (∀ (s : Store) (body : Option Book) (nid : String), StoreInv s → nid ≠ "" →
      StoreInv (createBook s body nid).1) ∧
    (∀ (s : Store) (id : String) (body : Option Book), StoreInv s →
      StoreInv (updateBook s id body).1) ∧
    (∀ (s : Store) (id : String) (body : Option Book), StoreInv s →
      StoreInv (replaceBook s id body).1) ∧
    (∀ (s : Store) (id : String), StoreInv s → StoreInv (deleteBook s id).1) := by
  have hnil : StoreInv [] := fun p hp => absurd hp (List.not_mem_nil p)
  refine ⟨?_, ?_, ?_, ?_, ?_⟩
  · have hb1 : BookOK id1 (Book.mk id1 "Clean Architecture" "Robert C. Martin" 2017) :=
      ⟨rfl, h1, by show ("Clean Architecture" : String) ≠ ""; decide,
        by show ("Robert C. Martin" : String) ≠ ""; decide⟩
    have hb2 : BookOK id2 (Book.mk id2 "The Go Programming Language" "Alan A. A. Donovan" 2015) :=
      ⟨rfl, h2, by show ("The Go Programming Language" : String) ≠ ""; decide,
        by show ("Alan A. A. Donovan" : String) ≠ ""; decide⟩
    exact StoreInv_insert _ id2 _ (StoreInv_insert _ id1 _ hnil hb1) hb2
  · intro s body nid hs hnid
    cases body with
    | none => exact hs
    | some payload =>
      cases hv : validateBookPayload payload with
      | some msg => simpa [createBook, hv] using hs
      | none =>
        obtain ⟨htit, haut⟩ := (validateBookPayload_none_iff payload).mp hv
        have hst : (createBook s (some payload) nid).1 =
            storeInsert s nid { payload with id := nid } := by
          simp [createBook, hv]
        rw [hst]
        exact StoreInv_insert s nid _ hs ⟨rfl, hnid, htit, haut⟩
  · intro s id body hs
    cases hf : storeFind s id with
    | none => simpa [updateBook, hf] using hs
    | some existing =>
      cases body with
      | none => simpa [updateBook, hf] using hs
      | some payload =>
        obtain ⟨hid, hid0, htit, haut⟩ := hs _ (storeFind_mem s id existing hf)
        have hst : (updateBook s id (some payload)).1 = storeInsert s id
            { id := existing.id
              title := if payload.title ≠ "" then payload.title else existing.title
              author := if payload.author ≠ "" then payload.author else existing.author
              year := if payload.year ≠ 0 then payload.year else existing.year } := by
          simp [updateBook, hf]
        rw [hst]
        refine StoreInv_insert s id _ hs ⟨hid, ?_, ?_, ?_⟩
        · exact hid0
        · by_cases hc : payload.title = "" <;> simp [hc, htit]
        · by_cases hc : payload.author = "" <;> simp [hc, haut]
  · intro s id body hs
    cases body with
    | none => exact hs
    | some payload =>
      cases hv : validateBookPayload payload with
      | some msg => simpa [replaceBook, hv] using hs
      | none =>
        obtain ⟨htit, haut⟩ := (validateBookPayload_none_iff payload).mp hv
        cases hf : storeFind s id with
        | none => simpa [replaceBook, hv, hf] using hs
        | some existing =>
          obtain ⟨hid, hid0, _, _⟩ := hs _ (storeFind_mem s id existing hf)
          have h3 : existing.id = id := hid
          have h4 : existing.id ≠ "" := hid0
          have hidne : id ≠ "" := by rw [← h3]; exact h4
          have hst : (replaceBook s id (some payload)).1 =
              storeInsert s id { payload with id := id } := by
            simp [replaceBook, hv, hf]
          rw [hst]
          exact StoreInv_insert s id _ hs ⟨rfl, hidne, htit, haut⟩
  · intro s id hs
    cases hf : storeFind s id with
    | none => simpa [deleteBook, hf] using hs
    | some existing =>
      have hst : (deleteBook s id).1 = storeErase s id := by simp [deleteBook, hf]
      rw [hst]
      exact StoreInv_erase s id hs

/-- C5 witness: the invariant at a concrete run: seed with uuids "s1","s2",
then create, patch, replace and delete on that seeded store. -/
theorem store_invariant_preserved_witness :
    ("s1" : String) ≠ "" ∧ ("s2" : String) ≠ "" ∧ ("s3" : String) ≠ "" ∧
    StoreInv (seedData "s1" "s2") ∧
    StoreInv (createBook (seedData "s1" "s2") (some payloadT) "s3").1 ∧
    StoreInv (updateBook (seedData "s1" "s2") "s1" (some patchX)).1 ∧
    StoreInv (replaceBook (seedData "s1" "s2") "s1" (some payloadT)).1 ∧
    StoreInv (deleteBook (seedData "s1" "s2") "s1").1 := by
  have h := store_invariant_preserved "s1" "s2" (by decide) (by decide)
  exact ⟨by decide, by decide, by decide, h.1,
    h.2.1 _ (some payloadT) "s3" h.1 (by decide),
    h.2.2.1 _ "s1" (some patchX) h.1,
    h.2.2.2.1 _ "s1" (some payloadT) h.1,
    h.2.2.2.2 _ "s1" h.1⟩

/-- C1 counterexample: on parsed limit 0 (below 1) the handler uses the
default 50, not 1 as claimed; and List is not failure-free: at the
reachable parsed page 9223372036854775807 (max int64) the slice index
arithmetic wraps to a negative start and the slice expression panics, so
the handler returns no result. -/
theorem getAllBooks_limit_floor_counterexample :
    (0 : Int) < 1 ∧
    (getAllBooks [] 1 0).map ListResult.limit = some 50 ∧
    (getAllBooks [] 1 0).map ListResult.limit ≠ some 1 ∧
    (1 : Int) ≤ 9223372036854775807 ∧
    getAllBooks [] 9223372036854775807 50 = none := by
  refine ⟨by decide, by decide, by decide, by decide, by decide⟩

/-- C1 (amended): the List handler either panics on wrapped slice indices
(no result; a 500 via the recover middleware) or succeeds echoing the
clamped parameters: a parsed page below 1 becomes 1 and a parsed limit
below 1 is reset to the default 50 (not to 1), both effective values being
at least 1. -/
theorem getAllBooks_clamps_page_and_limit (books : List Book) (pageQ limitQ : Int) :
    getAllBooks books pageQ limitQ = none ∨
    ∃ r : ListResult, getAllBooks books pageQ limitQ = some r ∧
      r.page = (if pageQ < 1 then 1 else pageQ) ∧
      r.limit = (if limitQ < 1 then 50 else limitQ) ∧
      1 ≤ r.page ∧ 1 ≤ r.limit := by
  have hred : getAllBooks books pageQ limitQ =
      (goSlice books
          (listStart books (if pageQ < 1 then 1 else pageQ)
            (if limitQ < 1 then 50 else limitQ))
          (listStop books (if pageQ < 1 then 1 else pageQ)
            (if limitQ < 1 then 50 else limitQ))).map
        (fun paged =>
          { data := paged
            page := if pageQ < 1 then 1 else pageQ
            limit := if limitQ < 1 then 50 else limitQ
            total := books.length }) := rfl
  rw [hred]
  cases goSlice books
      (listStart books (if pageQ < 1 then 1 else pageQ) (if limitQ < 1 then 50 else limitQ))
      (listStop books (if pageQ < 1 then 1 else pageQ) (if limitQ < 1 then 50 else limitQ)) with
  | none => exact Or.inl rfl
  | some paged =>
    refine Or.inr ⟨_, rfl, rfl, rfl, ?_, ?_⟩
    · show (1 : Int) ≤ (if pageQ < 1 then 1 else pageQ)
      split <;> omega
    · show (1 : Int) ≤ (if limitQ < 1 then 50 else limitQ)
      split <;> omega

theorem if_gt_eq_min (x n : Int) : (if x > n then n else x) = min x n := by
  split <;> omega

theorem take_drop_decomposition {α : Type} (l : List α) (s t : Nat) (h : s ≤ t) :
    l.take s ++ (l.take t).drop s ++ l.drop t = l := by
  have h1 : (l.take t).take s = l.take s := by
    rw [List.take_take, Nat.min_eq_left h]
  rw [← h1, List.take_append_drop, List.take_append_drop]

/-- Snapshot of three books for the pagination scenario. -/
def demoBooks : List Book :=
  [Book.mk "a" "A" "AA" 1, Book.mk "b" "B" "BB" 2, Book.mk "c" "C" "CC" 3]

theorem wrap64_eq_self (x : Int) (h1 : -9223372036854775808 ≤ x)
    (h2 : x < 9223372036854775808) : wrap64 x = x := by
  unfold wrap64
  omega

/-- C2 counterexample: at effective page 9223372036854775807 (max int64,
reachable from the query string) and limit 50 (both at least 1) the slice
index arithmetic wraps to negative values and the handler panics instead
of returning the clamped contiguous slice: no result is produced. -/
theorem getAllBooks_pagination_counterexample :
    (1 : Int) ≤ 9223372036854775807 ∧ (1 : Int) ≤ 50 ∧
    getAllBooks demoBooks 9223372036854775807 50 = none := by
  refine ⟨by decide, by decide, by decide⟩

/-- C2 (amended): for every snapshot and every effective page and limit at
least 1 whose slice arithmetic (page-1)*limit+limit stays below 2^63 (no
int64 wrap-around), List returns the slice of the snapshot over
[(page-1)*limit, (page-1)*limit+limit) clamped to the snapshot bounds: the
data has length at most limit, it is a contiguous sub-range of the
snapshot at offset (page-1)*limit clamped to the snapshot length, and the
reported total is the snapshot length. -/
theorem getAllBooks_pagination_bounds (books : List Book) (page limit : Int)
    (hp : 1 ≤ page) (hl : 1 ≤ limit)
    (hov : (page - 1) * limit + limit < 9223372036854775808) :
    ∃ data : List Book,
      getAllBooks books page limit =
        some { data := data, page := page, limit := limit, total := books.length } ∧
      data.length ≤ limit.toNat ∧
      ∃ pre post, books = pre ++ data ++ post ∧
        pre.length = min ((page - 1) * limit).toNat books.length := by
  have hp' : ¬ page < 1 := by omega
  have hl' : ¬ limit < 1 := by omega
  have ha : 0 ≤ (page - 1) * limit := mul_nonneg (by omega) (by omega)
  have hmono : page - 1 ≤ (page - 1) * limit := le_mul_of_one_le_right (by omega) hl
  have hn0 : (0 : Int) ≤ (books.length : Int) := Int.natCast_nonneg _
  have hub : (page - 1) * limit < 9223372036854775808 := by linarith
  have w1 : wrap64 (page - 1) = page - 1 := wrap64_eq_self _ (by linarith) (by linarith)
  have w2 : wrap64 (wrap64 (page - 1) * limit) = (page - 1) * limit := by
    rw [w1]
    exact wrap64_eq_self _ (by linarith) hub
  have hstart : listStart books page limit =
      min ((page - 1) * limit) (books.length : Int) := by
    simp only [listStart, w2, if_gt_eq_min]
  have hsb : 0 ≤ min ((page - 1) * limit) (books.length : Int) := le_min ha hn0
  have hsu : min ((page - 1) * limit) (books.length : Int) ≤ (page - 1) * limit :=
    min_le_left _ _
  have w3 : wrap64 (listStart books page limit + limit) =
      min ((page - 1) * limit) (books.length : Int) + limit := by
    rw [hstart]
    exact wrap64_eq_self _ (by linarith) (by linarith)
  have hstop : listStop books page limit =
      min (min ((page - 1) * limit) (books.length : Int) + limit) (books.length : Int) := by
    simp only [listStop, w3, if_gt_eq_min]
  have h1 : (0 : Int) ≤ listStart books page limit := by
    rw [hstart]
    exact hsb
  have h2 : listStart books page limit ≤ listStop books page limit := by
    rw [hstart, hstop]
    exact le_min (by linarith) (min_le_right _ _)
  have h3 : listStop books page limit ≤ (books.length : Int) := by
    rw [hstop]
    exact min_le_right _ _
  have hslice : goSlice books (listStart books page limit) (listStop books page limit) =
      some ((books.take (listStop books page limit).toNat).drop
        (listStart books page limit).toNat) := by
    unfold goSlice
    rw [if_pos ⟨h1, h2, h3⟩]
  have hred : getAllBooks books page limit =
      (goSlice books
          (listStart books (if page < 1 then 1 else page) (if limit < 1 then 50 else limit))
          (listStop books (if page < 1 then 1 else page)
            (if limit < 1 then 50 else limit))).map
        (fun paged =>
          { data := paged
            page := if page < 1 then 1 else page
            limit := if limit < 1 then 50 else limit
            total := books.length }) := rfl
  rw [if_neg hp', if_neg hl'] at hred
  have hget : getAllBooks books page limit =
      some { data := (books.take (listStop books page limit).toNat).drop
               (listStart books page limit).toNat
             page := page, limit := limit, total := books.length } := by
    rw [hred, hslice, Option.map_some']
  rw [hget, hstart, hstop]
  obtain ⟨a, hA⟩ : ∃ a, a = (page - 1) * limit := ⟨_, rfl⟩
  rw [← hA] at ha hov ⊢
  have hs : (0 : Int) ≤ min a (books.length : Int) := le_min ha hn0
  refine ⟨(books.take (min (min a (books.length : Int) + limit)
      (books.length : Int)).toNat).drop (min a (books.length : Int)).toNat,
    rfl, ?_, books.take (min a (books.length : Int)).toNat,
    books.drop (min (min a (books.length : Int) + limit) (books.length : Int)).toNat,
    ?_, ?_⟩
  · rw [List.length_drop, List.length_take]
    omega
  · exact (take_drop_decomposition books (min a (books.length : Int)).toNat
      (min (min a (books.length : Int) + limit) (books.length : Int)).toNat (by omega)).symm
  · rw [List.length_take]
    omega

/-- C2 witness: the pagination bounds at the spec scenario: page 2 and
limit 1 on a snapshot of three books (no overflow). -/
theorem getAllBooks_pagination_bounds_witness :
    (1 : Int) ≤ 2 ∧ (1 : Int) ≤ 1 ∧
    ((2 : Int) - 1) * 1 + 1 < 9223372036854775808 ∧
    (∃ data : List Book,
      getAllBooks demoBooks 2 1 =
        some { data := data, page := 2, limit := 1, total := demoBooks.length } ∧
      data.length ≤ (1 : Int).toNat ∧
      ∃ pre post, demoBooks = pre ++ data ++ post ∧
        pre.length = min (((2 : Int) - 1) * 1).toNat demoBooks.length) :=
  ⟨by decide, by decide, by decide,
    getAllBooks_pagination_bounds demoBooks 2 1 (by decide) (by decide) (by decide)⟩
